import Mathlib

/-!
Shallow embedding of the OpenMOC outer-iteration (convergence) engine,
`src/Solver.cpp`, together with theorems checking the natural-language
specification against it.

Modelling conventions:
  * `FP_PRECISION` / `double` are modelled as `ℚ` (exact arithmetic, the
    idealization the specification itself reasons in).  The irrational
    constants `FOUR_PI` and `ONE_OVER_FOUR_PI` are therefore carried as
    opaque rational parameters in a `Constants` record: no claim depends
    on their numeric value, only on where they occur.
  * C++ `int` indices and counts are modelled as `ℤ` (the claims mention
    negative inputs such as `fsr_id = -1`).
  * `log_printf(ERROR, ...)` aborts the call in OpenMOC; a fallible
    operation is modelled as `Except`.  Setters carry the solver state at
    the abort point in the error payload so that "no mutation" claims are
    expressible; queries never mutate and carry only the error kind.
    The error kinds mirror the message taxonomy used by the spec
    (`OutOfRange`, `NotReady`, `ConfigurationError`, `InvalidArgument`).
  * The inner numeric kernels (`transportSweep`, `computeResidual`,
    `normalizeFluxes`, `computeFSRSources`, `addSourceToScalarFlux`,
    `computeKeff`, and the CMFD collaborator) are implemented in
    subclasses / collaborators that are not part of `src/`; they are
    modelled as an abstract `Kernels` record of deterministic functions of
    the solver's core state, typed to write exactly the arrays the spec's
    sweep/CMFD contracts allow them to write.
  * A handful of trivial CPU-subclass helpers absent from `src/`
    (`flattenFSRFluxes`, `zeroTrackFluxes`, `storeFSRFluxes`, the array
    (re)allocators, and the storing override of `setFixedSourceByFSR`)
    are modelled from the spec; each such definition says so in its doc
    comment.
-/

namespace OpenMOC

/-- Numeric type standing for `FP_PRECISION` / `double` (exact model). -/
abbrev FP := ℚ

/-- The residual type selector (`residualType` in the source). -/
inductive residualType where
  | SCALAR_FLUX
  | TOTAL_SOURCE
  | FISSION_SOURCE
deriving DecidableEq

/-- Error taxonomy for aborting `log_printf(ERROR, ...)` calls, following
the message classes the specification names. -/
inductive SolverError where
  | outOfRange
  | notReady
  | configurationError
  | invalidArgument
deriving DecidableEq

/-- Irrational physical constants of `constants.h`, carried opaquely. -/
structure Constants where
  FOUR_PI : FP
  ONE_OVER_FOUR_PI : FP

/-- A material, as read through the `Material` accessors used by
`Solver.cpp`: `getNuSigmaF`, `getChi`, `getSigmaSByGroupInline`,
`isFissionable`, `getId`.  Cross-section arrays are 0-based by group. -/
structure Material where
  id : ℤ
  nu_sigma_f : ℤ → FP
  chi : ℤ → FP
  sigma_s : ℤ → ℤ → FP
  fissionable : Bool

/-- A track handle (the engine stores only non-owning pointers). -/
structure Track where
  uid : ℤ
deriving DecidableEq

/-- The polar quadrature view used by the engine: an angle count and the
per-angle multiples (`getNumPolarAngles`, `getMultiple`). -/
structure PolarQuad where
  num_polar : ℤ
  multiple : ℤ → FP

/-- The CMFD collaborator's engine-visible configuration. -/
structure Cmfd where
  flux_update_on : Bool

/-- The geometry view used by `Solver::setGeometry` and
`Solver::initializeFSRs`. -/
structure Geometry where
  num_FSRs : ℤ
  num_energy_groups : ℤ
  num_materials : ℤ
  fsr_material : ℤ → Material
  cmfd : Option Cmfd

/-- A default geometry used only to give `Option.getD` a value at
dereferences of `_geometry`; every solve path that dereferences the
geometry runs with a geometry attached. -/
def emptyGeometry : Geometry :=
  { num_FSRs := 0
    num_energy_groups := 0
    num_materials := 0
    fsr_material := fun _ =>
      { id := 0, nu_sigma_f := fun _ => 0, chi := fun _ => 0
        sigma_s := fun _ _ => 0, fissionable := false }
    cmfd := none }

/-- The track-generator view used by `Solver.cpp`: `containsTracks`,
`getNumAzim`, `getTracks` (2-D, by azimuthal index then track index),
`getNumTracks`, `getGeometry`, `getMaxOpticalLength` (measured over all
generated segments), `getFSRVolumes`, `getAzimWeights`. -/
structure TrackGenerator where
  contains_tracks : Bool
  num_azim : ℕ
  tracks : List (List Track)
  num_total_tracks : ℤ
  geometry : Geometry
  max_optical_length : FP
  fsr_volumes : ℤ → FP
  azim_weights : ℤ → FP

/-- The exponential evaluator's engine-visible state: strategy flag,
user-configurable maximum optical length, table precision, and whether
the interpolation table has been built. -/
structure ExpEvaluator where
  interpolate : Bool
  max_optical_length : FP
  exp_precision : FP
  table_built : Bool

/-- The solver fields read and written by the iteration kernels: all of
`Solver`'s state except the iteration counter (which no kernel reads).
`Option` on an array field models a `NULL`-able pointer.  The flux-shaped
arrays are total functions `fsr → group → value`; the boundary angular
flux is flattened to one index. -/
structure CoreState where
  num_materials : ℤ
  num_groups : ℤ
  num_azim : ℕ
  num_FSRs : ℤ
  num_fissionable_FSRs : ℤ
  FSR_volumes : Option (ℤ → FP)
  FSR_materials : ℤ → Material
  track_generator : Option TrackGenerator
  geometry : Option Geometry
  cmfd : Option Cmfd
  exp_evaluator : ExpEvaluator
  tracks : Option (List Track)
  tot_num_tracks : ℤ
  polar_weights : Option (ℤ → ℤ → FP)
  boundary_flux : ℤ → FP
  scalar_flux : Option (ℤ → ℤ → FP)
  old_scalar_flux : Option (ℤ → ℤ → FP)
  fixed_sources : ℤ → ℤ → FP
  reduced_sources : ℤ → ℤ → FP
  user_polar_quad : Bool
  polar_quad : PolarQuad
  num_polar : ℤ
  polar_times_groups : ℤ
  converge_thresh : FP
  k_eff : FP

/-- The full solver state: the kernel-visible core plus the iteration
counter `_num_iterations`. -/
structure SolverState extends CoreState where
  num_iterations : ℤ

/-- Sum of `f 0 + f 1 + ... + f (n-1)`: the `for (e = 0; e < n; e++)
acc += f(e)` accumulation pattern of `Solver.cpp`. -/
def sumRange (n : ℕ) (f : ℕ → FP) : FP :=
  ((List.range n).map f).sum

/-- Translation of `Solver::getFSRVolume` (Solver.cpp:125).  Note the guard is
`fsr_id < 0 || fsr_id > _num_FSRs`: the boundary value `_num_FSRs`
passes it. -/
def getFSRVolume (s : SolverState) (fsr_id : ℤ) : Except SolverError FP :=
  if fsr_id < 0 ∨ s.num_FSRs < fsr_id then .error .outOfRange
  else match s.FSR_volumes with
    | none => .error .notReady
    | some v => .ok (v fsr_id)

/-- Translation of `Solver::getFSRScalarFlux` (Solver.cpp:222): else-if chain of guards
`fsr_id >= _num_FSRs`, `fsr_id < 0`, `group-1 >= _num_groups`,
`group <= 0`, `_scalar_flux == NULL`, then reads
`_scalar_flux(fsr_id, group-1)`. -/
def getFSRScalarFlux (s : SolverState) (fsr_id group : ℤ) :
    Except SolverError FP :=
  if s.num_FSRs ≤ fsr_id then .error .outOfRange
  else if fsr_id < 0 then .error .outOfRange
  else if s.num_groups ≤ group - 1 then .error .outOfRange
  else if group ≤ 0 then .error .outOfRange
  else match s.scalar_flux with
    | none => .error .notReady
    | some phi => .ok (phi fsr_id (group - 1))

/-- Translation of `Solver::getFSRSource` (Solver.cpp:255), translated statement by
statement: the running accumulator `source` starts at `0`, the fission
loop adds `Σ_e φ(r,e)·νΣf(e)` and then the whole accumulator is divided
by `_k_eff * chi[group-1]`, the scatter loop adds
`Σ_g σs(g→group-1)·φ(r,g)`, the fixed source is added, and the result is
scaled by `ONE_OVER_FOUR_PI`. -/
def getFSRSource (cst : Constants) (s : SolverState) (fsr_id group : ℤ) :
    Except SolverError FP :=
  if s.num_FSRs ≤ fsr_id then .error .outOfRange
  else if fsr_id < 0 then .error .outOfRange
  else if s.num_groups ≤ group - 1 then .error .outOfRange
  else if group ≤ 0 then .error .outOfRange
  else match s.scalar_flux with
    | none => .error .notReady
    | some phi =>
      let material := s.FSR_materials fsr_id
      let source0 : FP := 0
      let source1 :=
        if material.fissionable then
          (source0 + sumRange s.num_groups.toNat
            (fun e => phi fsr_id (e : ℤ) * material.nu_sigma_f (e : ℤ)))
            / (s.k_eff * material.chi (group - 1))
        else source0
      let source2 := source1 + sumRange s.num_groups.toNat
        (fun g => material.sigma_s (g : ℤ) (group - 1) * phi fsr_id (g : ℤ))
      let source3 := source2 + s.fixed_sources fsr_id (group - 1)
      .ok (source3 * cst.ONE_OVER_FOUR_PI)

/-- The source value exactly as the specification's sentence states it:
`((fissionable ? Σ_e φ[r][e]·νΣf[e] / (kEff·chi[g]) : 0)
  + Σ_e φ[r][e]·scatterXS[e→g] + fixedSource[r][g]) · 1/(4π)`.
Written from the spec's words, to be compared with `getFSRSource`. -/
def getFSRSourceSpecFormula (cst : Constants) (s : SolverState)
    (phi : ℤ → ℤ → FP) (fsr_id group : ℤ) : FP :=
  ((if (s.FSR_materials fsr_id).fissionable then
      sumRange s.num_groups.toNat
        (fun e => phi fsr_id (e : ℤ) * (s.FSR_materials fsr_id).nu_sigma_f (e : ℤ))
        / (s.k_eff * (s.FSR_materials fsr_id).chi (group - 1))
    else 0)
   + sumRange s.num_groups.toNat
      (fun e => phi fsr_id (e : ℤ) * (s.FSR_materials fsr_id).sigma_s (e : ℤ) (group - 1))
   + s.fixed_sources fsr_id (group - 1)) * cst.ONE_OVER_FOUR_PI

/-- Translation of `Solver::setGeometry` (Solver.cpp:310): rejects a geometry with no
initialized FSRs, otherwise stores it and derives the dimension
counts. -/
def setGeometryS (g : Geometry) (s : SolverState) :
    Except (SolverError × SolverState) SolverState :=
  if g.num_FSRs = 0 then .error (.configurationError, s)
  else .ok { s with
    geometry := some g
    cmfd := g.cmfd
    num_FSRs := g.num_FSRs
    num_groups := g.num_energy_groups
    polar_times_groups := g.num_energy_groups * s.num_polar
    num_materials := g.num_materials }

/-- The flat track array built by `Solver::setTrackGenerator`
(Solver.cpp:352-360): for each azimuthal index `i < getNumAzim()/2`, the
tracks `getTracks()[i][j]` in track-index order, concatenated — i.e. the
flat array is ordered by azimuthal index, then track index. -/
def flatTracks (tg : TrackGenerator) : List Track :=
  ((List.range (tg.num_azim / 2)).map (fun i => tg.tracks.getD i [])).flatten

/-- Translation of `Solver::setTrackGenerator` (Solver.cpp:340): fails if the generator
reports no generated tracks; otherwise binds it, derives `_num_azim` and
`_tot_num_tracks`, builds the flat track array, and stores the
generator's geometry via `setGeometry`. -/
def setTrackGeneratorS (tg : TrackGenerator) (s : SolverState) :
    Except (SolverError × SolverState) SolverState :=
  if !tg.contains_tracks then .error (.configurationError, s)
  else
    let s1 : SolverState := { s with
      track_generator := some tg
      num_azim := tg.num_azim / 2
      tot_num_tracks := tg.num_total_tracks
      tracks := some (flatTracks tg) }
    setGeometryS tg.geometry s1

/-- Translation of `Solver::setFixedSourceByFSR` (Solver.cpp:416): the base-class
routine, which only performs the bounds validation (its doc comment says
the subclasses store the value). -/
def setFixedSourceByFSR (s : SolverState) (fsr_id group : ℤ) (source : FP) :
    Except (SolverError × SolverState) SolverState :=
  if group ≤ 0 ∨ s.num_groups < group then .error (.outOfRange, s)
  else if fsr_id < 0 ∨ s.num_FSRs ≤ fsr_id then .error (.outOfRange, s)
  else .ok s

/-- Modelled from the spec: the storing override of `setFixedSourceByFSR`
lives in the CPU subclass, which is not under `src/`; `Solver.cpp` only
validates.  Spec §4.5: "by region id (base case, validates and stores)" —
after the base validation succeeds, the value is stored in the fixed
source overlay at `(fsr_id, group-1)` (user-facing groups are 1-based,
the array is 0-based). -/
def setFixedSourceByFSRStore (s : SolverState) (fsr_id group : ℤ)
    (source : FP) : Except (SolverError × SolverState) SolverState :=
  match setFixedSourceByFSR s fsr_id group source with
  | .error e => .error e
  | .ok _ => .ok { s with
      fixed_sources := fun r g =>
        if r = fsr_id ∧ g = group - 1 then source else s.fixed_sources r g }

/-- Observable actions of `Solver::initializeExpEvaluator` on external
collaborators: the segment-splitting request sent to the track generator
and the construction of the interpolation table. -/
inductive ExpEvent where
  | splitSegments (tau : FP)
  | initTable
deriving DecidableEq

/-- The body of `Solver::initializeExpEvaluator` (Solver.cpp:552) acting
on the evaluator: in interpolation mode it takes
`max_tau = min(trackGenerator.getMaxOpticalLength(), evaluator bound)`,
asks the generator to split segments at `max_tau`, stores `max_tau` as
the evaluator's maximum optical length and builds the table; in
intrinsic mode it does none of this.  The returned list records the
external calls in program order. -/
def expEvalInit (tg : TrackGenerator) (ev : ExpEvaluator) :
    ExpEvaluator × List ExpEvent :=
  if ev.interpolate then
    let max_tau := min tg.max_optical_length ev.max_optical_length
    ({ ev with max_optical_length := max_tau, table_built := true },
     [ExpEvent.splitSegments max_tau, ExpEvent.initTable])
  else (ev, [])

/-- Translation of `Solver::initializeExpEvaluator` lifted to the solver core state. -/
def initializeExpEvaluatorC (tg : TrackGenerator) (c : CoreState) :
    CoreState × List ExpEvent :=
  let r := expEvalInit tg c.exp_evaluator
  ({ c with exp_evaluator := r.1 }, r.2)

/-- Translation of `Solver::initializePolarQuadrature` (Solver.cpp:524): binds the
engine's polar-angle count to the quadrature, recomputes
`_polar_times_groups`, and rebuilds the azimuthal-polar weights
`azim_weights[i] * getMultiple(p) * FOUR_PI`. -/
def initializePolarQuadratureC (cst : Constants) (tg : TrackGenerator)
    (c : CoreState) : CoreState :=
  { c with
    polar_quad := { c.polar_quad with num_polar := c.num_polar }
    polar_times_groups := c.num_groups * c.num_polar
    polar_weights := some
      (fun i p => tg.azim_weights i * c.polar_quad.multiple p * cst.FOUR_PI) }

/-- Translation of `Solver::initializeFSRs` (Solver.cpp:579): stores the generator's
volume array and rebuilds the FSR→material map from the geometry. -/
def initializeFSRsC (tg : TrackGenerator) (c : CoreState) : CoreState :=
  { c with
    FSR_volumes := some tg.fsr_volumes
    FSR_materials := fun r => (c.geometry.getD emptyGeometry).fsr_material r }

/-- Count of fissionable FSRs among ids `0 .. n-1`. -/
def fissCount (n : ℕ) (mats : ℤ → Material) : ℤ :=
  (((List.range n).filter (fun r => (mats (r : ℤ)).fissionable)).length : ℤ)

/-- Translation of `Solver::countFissionableFSRs` (Solver.cpp:617). -/
def countFissionableFSRsC (c : CoreState) : CoreState :=
  { c with num_fissionable_FSRs := fissCount c.num_FSRs.toNat c.FSR_materials }

/-- Translation of `Solver::initializeCmfd` (Solver.cpp:639) hands non-owning references
to the CMFD collaborator; it changes no solver field. -/
def initializeCmfdC (c : CoreState) : CoreState := c

/-- The guard `_cmfd != NULL && _cmfd->isFluxUpdateOn()`. -/
def cmfdFluxUpdateOn (c : CoreState) : Bool :=
  match c.cmfd with
  | some m => m.flux_update_on
  | none => false

/-- Modelled from the spec: `flattenFSRFluxes(v)` is implemented by the
CPU subclass (not under `src/`); spec §8 fixes its meaning — "after
`flattenFSRFluxes(1.0)`, every region/group scalar flux equals exactly
`1.0`". -/
def flattenFSRFluxesC (v : FP) (c : CoreState) : CoreState :=
  { c with scalar_flux := some (fun _ _ => v) }

/-- Modelled from the spec: `zeroTrackFluxes` is implemented by the CPU
subclass (not under `src/`); spec §3 — the boundary angular flux is
"reset to zero at the start of a fresh solve". -/
def zeroTrackFluxesC (c : CoreState) : CoreState :=
  { c with boundary_flux := fun _ => 0 }

/-- Modelled from the spec: `storeFSRFluxes` is implemented by the CPU
subclass (not under `src/`); spec §3 — the scalar flux field is
"double-buffered (current + previous iteration) to support residual
computation", so the end-of-iteration store copies the current flux into
the previous-iteration buffer. -/
def storeFSRFluxesC (c : CoreState) : CoreState :=
  { c with old_scalar_flux := c.scalar_flux }

/-- Modelled from the spec: `initializeFluxArrays` is implemented by the
CPU subclass (not under `src/`); it (re)allocates the boundary and the
two scalar-flux buffers (spec §5: "all large arrays are reallocated ...
whenever problem dimensions change").  Fresh storage is modelled as
zero-filled; `computeFlux` immediately overwrites the scalar flux with
`flattenFSRFluxes(0.0)` whenever this runs. -/
def initializeFluxArraysC (c : CoreState) : CoreState :=
  { c with
    boundary_flux := fun _ => 0
    scalar_flux := some (fun _ _ => 0)
    old_scalar_flux := some (fun _ _ => 0) }

/-- Modelled from the spec: `initializeSourceArrays` is implemented by
the CPU subclass (not under `src/`); it (re)allocates the reduced-source
buffer.  The fixed-source overlay keeps its independent lifecycle (spec
§3: "set before a solve call, persists across calls until explicitly
changed"). -/
def initializeSourceArraysC (c : CoreState) : CoreState :=
  { c with reduced_sources := fun _ _ => 0 }

/-- The abstract inner kernels: CPU/GPU-subclass and CMFD operations that
are not part of `src/`.  Each is a deterministic function of the
kernel-visible core state, returning exactly the arrays the spec's
contracts let it replace (spec §4.6 and §5). -/
structure Kernels where
  normalizeFluxes : CoreState → ((ℤ → ℤ → FP) × (ℤ → FP))
  computeFSRSources : CoreState → (ℤ → ℤ → FP)
  transportSweep : CoreState → ((ℤ → ℤ → FP) × (ℤ → FP))
  addSourceToScalarFlux : CoreState → (ℤ → ℤ → FP)
  computeResidual : residualType → CoreState → FP
  computeKeff : CoreState → FP
  cmfdComputeKeff : ℕ → CoreState → FP
  cmfdUpdateBoundary : CoreState → (ℤ → FP)

/-- Result of one of the three source-iteration loops:
the final core state, the value stored into `_num_iterations`, the last
residual computed (none when no iteration ran), whether the loop
returned through the in-loop convergence test, and whether the non-fatal
"Unable to converge" warning was emitted on the fall-through path. -/
structure LoopResult where
  core : CoreState
  numIterations : ℕ
  lastResidual : Option FP
  converged : Bool
  warned : Bool

/-- The solver object's state after a solve call: the loop's final core
plus the iteration counter the loop stored. -/
def LoopResult.toState (R : LoopResult) : SolverState :=
  { toCoreState := R.core, num_iterations := (R.numIterations : ℤ) }

/-- The shared source-iteration loop of `computeFlux`, `computeSource`
and `computeEigenvalue` (Solver.cpp:742, 837, 922), with the body
abstracted: `for (i = 0; i < max_iters; i++) { (state, residual) :=
body i state; if (i > 1 && residual < thresh) { _num_iterations = i;
return; } }` followed by the warning and `_num_iterations = max_iters`
on fall-through.  `fuel` counts the iterations still allowed. -/
def iterLoopGo (body : ℕ → CoreState → CoreState × FP) (thresh : FP)
    (maxIters : ℕ) : ℕ → ℕ → CoreState → Option FP → LoopResult
  | 0, _, c, r => ⟨c, maxIters, r, false, true⟩
  | fuel + 1, i, c, _ =>
    let step := body i c
    if 1 < i ∧ step.2 < thresh then ⟨step.1, i, some step.2, true, false⟩
    else iterLoopGo body thresh maxIters fuel (i + 1) step.1 (some step.2)

/-- Entry point of the shared source-iteration loop. -/
def iterLoop (body : ℕ → CoreState → CoreState × FP) (thresh : FP)
    (maxIters : ℕ) (c : CoreState) : LoopResult :=
  iterLoopGo body thresh maxIters maxIters 0 c none

/-- One iteration of `computeFlux`'s loop (Solver.cpp:742-757):
`transportSweep(); addSourceToScalarFlux(); residual =
computeResidual(SCALAR_FLUX); storeFSRFluxes();`. -/
def fluxIterBody (K : Kernels) (_i : ℕ) (c : CoreState) : CoreState × FP :=
  let sw := K.transportSweep c
  let c1 := { c with scalar_flux := some sw.1, boundary_flux := sw.2 }
  let c2 := { c1 with scalar_flux := some (K.addSourceToScalarFlux c1) }
  let res := K.computeResidual residualType.SCALAR_FLUX c2
  (storeFSRFluxesC c2, res)

/-- One iteration of `computeSource`'s loop (Solver.cpp:837-853):
`computeFSRSources(); transportSweep(); addSourceToScalarFlux();
residual = computeResidual(res_type); storeFSRFluxes();`. -/
def sourceIterBody (K : Kernels) (rt : residualType) (_i : ℕ)
    (c : CoreState) : CoreState × FP :=
  let c0 := { c with reduced_sources := K.computeFSRSources c }
  let sw := K.transportSweep c0
  let c1 := { c0 with scalar_flux := some sw.1, boundary_flux := sw.2 }
  let c2 := { c1 with scalar_flux := some (K.addSourceToScalarFlux c1) }
  let res := K.computeResidual rt c2
  (storeFSRFluxesC c2, res)

/-- One iteration of `computeEigenvalue`'s loop (Solver.cpp:922-948):
`normalizeFluxes(); computeFSRSources(); transportSweep();
addSourceToScalarFlux(); residual = computeResidual(res_type);
storeFSRFluxes();` then the k-effective update, delegated to CMFD when
flux updating is enabled and to `computeKeff()` otherwise. -/
def eigIterBody (K : Kernels) (rt : residualType) (i : ℕ)
    (c : CoreState) : CoreState × FP :=
  let nf := K.normalizeFluxes c
  let c1 := { c with scalar_flux := some nf.1, boundary_flux := nf.2 }
  let c2 := { c1 with reduced_sources := K.computeFSRSources c1 }
  let sw := K.transportSweep c2
  let c3 := { c2 with scalar_flux := some sw.1, boundary_flux := sw.2 }
  let c4 := { c3 with scalar_flux := some (K.addSourceToScalarFlux c3) }
  let res := K.computeResidual rt c4
  let c5 := storeFSRFluxesC c4
  let c6 :=
    if cmfdFluxUpdateOn c5 then
      { c5 with
        k_eff := K.cmfdComputeKeff i c5
        boundary_flux := K.cmfdUpdateBoundary c5 }
    else { c5 with k_eff := K.computeKeff c5 }
  (c6, res)

/-- The initialization phase of `Solver::computeFlux` (Solver.cpp:722-739),
up to and including the one-off `computeFSRSources()` call: quadrature and
exponential-evaluator setup, the conditional flux (re)initialization —
performed exactly when `only_fixed_source || _num_iterations == 0` —
then source-array, FSR and fissionable-count setup, boundary-flux reset,
and the fixed/total/scattering source assembly. -/
def fluxInitPhase (K : Kernels) (cst : Constants) (tg : TrackGenerator)
    (only_fixed_source : Bool) (s : SolverState) : CoreState :=
  let c1 := initializePolarQuadratureC cst tg s.toCoreState
  let c2 := (initializeExpEvaluatorC tg c1).1
  let c3 :=
    if only_fixed_source ∨ s.num_iterations = 0 then
      flattenFSRFluxesC 0 (initializeFluxArraysC c2)
    else c2
  let c4 := initializeSourceArraysC c3
  let c5 := initializeFSRsC tg c4
  let c6 := countFissionableFSRsC c5
  let c7 := zeroTrackFluxesC c6
  { c7 with reduced_sources := K.computeFSRSources c7 }

/-- The body of `Solver::computeFlux` after its TrackGenerator guard. -/
def computeFluxCore (K : Kernels) (cst : Constants) (tg : TrackGenerator)
    (max_iters : ℕ) (only_fixed_source : Bool) (s : SolverState) :
    LoopResult :=
  iterLoop (fluxIterBody K)
    (fluxInitPhase K cst tg only_fixed_source s).converge_thresh max_iters
    (fluxInitPhase K cst tg only_fixed_source s)

/-- Translation of `Solver::computeFlux` (Solver.cpp:705): fails when no TrackGenerator
is attached, otherwise runs the initialization phase and the source
iteration loop. -/
def computeFlux (K : Kernels) (cst : Constants) (max_iters : ℕ)
    (only_fixed_source : Bool) (s : SolverState) :
    Except (SolverError × SolverState) LoopResult :=
  match s.track_generator with
  | none => .error (.configurationError, s)
  | some tg => .ok (computeFluxCore K cst tg max_iters only_fixed_source s)

/-- The initialization phase of `Solver::computeSource`
(Solver.cpp:822-834): stores the caller's k-effective, runs the array
initializations, seeds the scalar flux to uniform `1.0` and zeroes the
boundary fluxes. -/
def sourceLoopStart (cst : Constants) (tg : TrackGenerator) (k_eff : FP)
    (s : SolverState) : CoreState :=
  let c1 := { s.toCoreState with k_eff := k_eff }
  let c2 := initializePolarQuadratureC cst tg c1
  let c3 := (initializeExpEvaluatorC tg c2).1
  let c4 := initializeFluxArraysC c3
  let c5 := initializeSourceArraysC c4
  let c6 := initializeFSRsC tg c5
  let c7 := flattenFSRFluxesC 1 c6
  zeroTrackFluxesC c7

/-- The body of `Solver::computeSource` after its guards. -/
def computeSourceCore (K : Kernels) (cst : Constants) (tg : TrackGenerator)
    (max_iters : ℕ) (k_eff : FP) (res_type : residualType)
    (s : SolverState) : LoopResult :=
  iterLoop (sourceIterBody K res_type)
    (sourceLoopStart cst tg k_eff s).converge_thresh max_iters
    (sourceLoopStart cst tg k_eff s)

/-- Translation of `Solver::computeSource` (Solver.cpp:804): fails when no
TrackGenerator is attached; fails with an invalid-argument error when
`k_eff <= 0`, before touching any state; otherwise runs the loop. -/
def computeSource (K : Kernels) (cst : Constants) (max_iters : ℕ)
    (k_eff : FP) (res_type : residualType) (s : SolverState) :
    Except (SolverError × SolverState) LoopResult :=
  match s.track_generator with
  | none => .error (.configurationError, s)
  | some tg =>
    if k_eff ≤ 0 then .error (.invalidArgument, s)
    else .ok (computeSourceCore K cst tg max_iters k_eff res_type s)

/-- The initialization phase of `Solver::computeEigenvalue`
(Solver.cpp:904-919): seeds k-effective to `1.0`, runs the array
initializations and the fissionable-FSR count, hands the arrays to CMFD
when flux updating is enabled, seeds the scalar flux to uniform `1.0`
and zeroes the boundary fluxes. -/
def eigLoopStart (cst : Constants) (tg : TrackGenerator) (c : CoreState) :
    CoreState :=
  let c1 := { c with k_eff := 1 }
  let c2 := initializePolarQuadratureC cst tg c1
  let c3 := (initializeExpEvaluatorC tg c2).1
  let c4 := initializeFluxArraysC c3
  let c5 := initializeSourceArraysC c4
  let c6 := initializeFSRsC tg c5
  let c7 := countFissionableFSRsC c6
  let c8 := if cmfdFluxUpdateOn c7 then initializeCmfdC c7 else c7
  let c9 := flattenFSRFluxesC 1 c8
  zeroTrackFluxesC c9

/-- The body of `Solver::computeEigenvalue` after its guard. -/
def computeEigenvalueCore (K : Kernels) (cst : Constants)
    (tg : TrackGenerator) (max_iters : ℕ) (res_type : residualType)
    (s : SolverState) : LoopResult :=
  iterLoop (eigIterBody K res_type)
    (eigLoopStart cst tg s.toCoreState).converge_thresh max_iters
    (eigLoopStart cst tg s.toCoreState)

/-- Translation of `Solver::computeEigenvalue` (Solver.cpp:887): fails when no
TrackGenerator is attached, otherwise runs the power iteration. -/
def computeEigenvalue (K : Kernels) (cst : Constants) (max_iters : ℕ)
    (res_type : residualType) (s : SolverState) :
    Except (SolverError × SolverState) LoopResult :=
  match s.track_generator with
  | none => .error (.configurationError, s)
  | some tg => .ok (computeEigenvalueCore K cst tg max_iters res_type s)

/-- The kernel-visible fields that none of the three iteration-loop
bodies writes: everything except the two scalar-flux buffers, the
boundary flux, the reduced sources and k-effective. -/
def configView (c : CoreState) :=
  (c.num_materials, c.num_groups, c.num_azim, c.num_FSRs,
   c.num_fissionable_FSRs, c.FSR_volumes, c.FSR_materials,
   c.track_generator, c.geometry, c.cmfd, c.exp_evaluator, c.tracks,
   c.tot_num_tracks, c.polar_weights, c.fixed_sources, c.user_polar_quad,
   c.polar_quad, c.num_polar, c.polar_times_groups, c.converge_thresh)

/-- A fissionable two-group test material. -/
def testMaterial : Material :=
  { id := 1
    nu_sigma_f := fun _ => 2
    chi := fun _ => 1
    sigma_s := fun _ _ => 1/2
    fissionable := true }

/-- A two-FSR, two-group test geometry. -/
def testGeometry : Geometry :=
  { num_FSRs := 2
    num_energy_groups := 2
    num_materials := 1
    fsr_material := fun _ => testMaterial
    cmfd := none }

/-- A test track generator containing generated tracks. -/
def testTG : TrackGenerator :=
  { contains_tracks := true
    num_azim := 4
    tracks := [[⟨0⟩, ⟨1⟩], [⟨2⟩]]
    num_total_tracks := 3
    geometry := testGeometry
    max_optical_length := 5
    fsr_volumes := fun _ => 1
    azim_weights := fun _ => 1 }

/-- The same track generator before `generateTracks()` ran. -/
def testTGNoTracks : TrackGenerator := { testTG with contains_tracks := false }

/-- A test exponential evaluator in interpolation mode. -/
def testExp : ExpEvaluator :=
  { interpolate := true
    max_optical_length := 10
    exp_precision := 1/100000
    table_built := false }

/-- A concrete core state for witnesses: dimensions from `testGeometry`,
scalar flux computed (uniform 3). -/
def testCore : CoreState :=
  { num_materials := 1
    num_groups := 2
    num_azim := 2
    num_FSRs := 2
    num_fissionable_FSRs := 0
    FSR_volumes := some (fun _ => 1)
    FSR_materials := fun _ => testMaterial
    track_generator := some testTG
    geometry := some testGeometry
    cmfd := none
    exp_evaluator := testExp
    tracks := none
    tot_num_tracks := 3
    polar_weights := none
    boundary_flux := fun _ => 0
    scalar_flux := some (fun _ _ => 3)
    old_scalar_flux := none
    fixed_sources := fun _ _ => 0
    reduced_sources := fun _ _ => 0
    user_polar_quad := false
    polar_quad := { num_polar := 3, multiple := fun _ => 1 }
    num_polar := 3
    polar_times_groups := 6
    converge_thresh := 1/100000
    k_eff := 1 }

/-- A concrete solver state recording a prior solve (3 iterations). -/
def testState : SolverState := { toCoreState := testCore, num_iterations := 3 }

/-- Variant of `testState` before any flux was computed. -/
def testStateNoFlux : SolverState := { testState with scalar_flux := none }

/-- Variant of `testState` without a computed volume array. -/
def testStateNoVol : SolverState := { testState with FSR_volumes := none }

/-- Variant of `testState` with the exponential evaluator in intrinsic mode. -/
def testStateIntrinsic : SolverState :=
  { testState with exp_evaluator := { testExp with interpolate := false } }

/-- Placeholder values for the opaque constants; the claim theorems hold
for every value of the constants, so any rationals serve a witness. -/
def testConstants : Constants := { FOUR_PI := 12, ONE_OVER_FOUR_PI := 1/12 }

/-- Concrete deterministic kernels for witnesses. -/
def testKernels : Kernels :=
  { normalizeFluxes := fun _ => ((fun _ _ => 1), fun _ => 0)
    computeFSRSources := fun _ => fun _ _ => 0
    transportSweep := fun _ => ((fun _ _ => 1), fun _ => 0)
    addSourceToScalarFlux := fun _ => fun _ _ => 1
    computeResidual := fun _ _ => 0
    computeKeff := fun _ => 1
    cmfdComputeKeff := fun _ _ => 1
    cmfdUpdateBoundary := fun _ => fun _ => 0 }

lemma sumRange_congr (n : ℕ) (f g : ℕ → FP) (h : ∀ e, f e = g e) :
    sumRange n f = sumRange n g := by
  unfold sumRange
  induction n with
  | zero => rfl
  | succ m ih =>
    rw [List.range_succ, List.map_append, List.map_append, List.sum_append,
      List.sum_append, ih]
    simp [h m]

/-- Claim C2: for valid indices, once the scalar flux is computed,
`getFSRSource` returns exactly the specification's formula: the fission
sum divided by `kEff · chi[group]`, plus the in-scatter sum, plus the
user fixed source, all scaled by `1/(4π)`. -/
theorem C2_getFSRSource_formula (cst : Constants) (s : SolverState)
    (fsr_id group : ℤ) (phi : ℤ → ℤ → FP)
    (h1 : 0 ≤ fsr_id) (h2 : fsr_id < s.num_FSRs)
    (h3 : 1 ≤ group) (h4 : group ≤ s.num_groups)
    (hphi : s.scalar_flux = some phi) :
    getFSRSource cst s fsr_id group =
      .ok (getFSRSourceSpecFormula cst s phi fsr_id group) := by
  unfold getFSRSource getFSRSourceSpecFormula
  rw [if_neg (by omega), if_neg (by omega), if_neg (by omega),
    if_neg (by omega), hphi]
  have hscat :
      sumRange s.num_groups.toNat
        (fun g' => (s.FSR_materials fsr_id).sigma_s (g' : ℤ) (group - 1) *
          phi fsr_id (g' : ℤ)) =
      sumRange s.num_groups.toNat
        (fun e => phi fsr_id (e : ℤ) *
          (s.FSR_materials fsr_id).sigma_s (e : ℤ) (group - 1)) :=
    sumRange_congr _ _ _ (fun e => mul_comm _ _)
  simp only [zero_add, hscat]

/-- Claim C2 witness at a concrete solver state. -/
theorem C2_getFSRSource_formula_witness :
    getFSRSource testConstants testState 0 1 =
      .ok (getFSRSourceSpecFormula testConstants testState
        (fun _ _ => 3) 0 1) :=
  C2_getFSRSource_formula testConstants testState 0 1 (fun _ _ => 3)
    (by decide) (by decide) (by decide) (by decide) rfl

/-- Claim C4: `getFSRScalarFlux`, `getFSRSource` and
`setFixedSourceByFSR` raise their range error exactly when `fsr_id < 0`,
`fsr_id ≥ numFSRs`, `group ≤ 0` or `group > numGroups`; for indices in
`[0,numFSRs) × [1,numGroups]` no range error is raised, and the two
queries fail with the not-ready error when the scalar flux was never
computed. -/
theorem C4_index_validation (cst : Constants) (s : SolverState)
    (fsr_id group : ℤ) (v : FP) :
    (getFSRScalarFlux s fsr_id group = .error .outOfRange ↔
      (fsr_id < 0 ∨ s.num_FSRs ≤ fsr_id ∨ group ≤ 0 ∨ s.num_groups < group)) ∧
    (getFSRSource cst s fsr_id group = .error .outOfRange ↔
      (fsr_id < 0 ∨ s.num_FSRs ≤ fsr_id ∨ group ≤ 0 ∨ s.num_groups < group)) ∧
    (setFixedSourceByFSR s fsr_id group v = .error (.outOfRange, s) ↔
      (fsr_id < 0 ∨ s.num_FSRs ≤ fsr_id ∨ group ≤ 0 ∨ s.num_groups < group)) ∧
    (¬(fsr_id < 0 ∨ s.num_FSRs ≤ fsr_id ∨ group ≤ 0 ∨ s.num_groups < group) →
      s.scalar_flux = none →
      getFSRScalarFlux s fsr_id group = .error .notReady ∧
      getFSRSource cst s fsr_id group = .error .notReady) := by
  refine ⟨?_, ?_, ?_, ?_⟩
  · unfold getFSRScalarFlux
    split_ifs with hA hB hC hD <;> try (simp; omega)
    cases hflux : s.scalar_flux <;> simp <;> omega
  · unfold getFSRSource
    split_ifs with hA hB hC hD <;> try (simp; omega)
    cases hflux : s.scalar_flux <;> simp <;> omega
  · unfold setFixedSourceByFSR
    split_ifs with hA hB <;> simp <;> omega
  · intro hok hflux
    unfold getFSRScalarFlux getFSRSource
    rw [if_neg (by omega), if_neg (by omega), if_neg (by omega),
      if_neg (by omega), hflux]
    refine ⟨rfl, ?_⟩
    rw [if_neg (by omega), if_neg (by omega), if_neg (by omega),
      if_neg (by omega)]

/-- Claim C4 witness: each out-of-range corner fails, a valid pair
passes validation, and the queries report not-ready without a computed
flux. -/
theorem C4_index_validation_witness :
    getFSRScalarFlux testState (-1) 1 = .error .outOfRange ∧
    getFSRScalarFlux testState 2 1 = .error .outOfRange ∧
    getFSRScalarFlux testState 0 0 = .error .outOfRange ∧
    getFSRSource testConstants testState 0 3 = .error .outOfRange ∧
    ¬ setFixedSourceByFSR testState 0 1 5 = .error (.outOfRange, testState) ∧
    getFSRScalarFlux testStateNoFlux 0 1 = .error .notReady ∧
    getFSRSource testConstants testStateNoFlux 0 1 = .error .notReady := by
  refine ⟨?_, ?_, ?_, ?_, ?_, ?_, ?_⟩
  · exact (C4_index_validation testConstants testState (-1) 1 5).1.mpr
      (by decide)
  · exact (C4_index_validation testConstants testState 2 1 5).1.mpr
      (by decide)
  · exact (C4_index_validation testConstants testState 0 0 5).1.mpr
      (by decide)
  · exact (C4_index_validation testConstants testState 0 3 5).2.1.mpr
      (by decide)
  · intro h
    exact absurd ((C4_index_validation testConstants testState 0 1 5).2.2.1.mp h)
      (by decide)
  · exact ((C4_index_validation testConstants testStateNoFlux 0 1 5).2.2.2
      (by decide) rfl).1
  · exact ((C4_index_validation testConstants testStateNoFlux 0 1 5).2.2.2
      (by decide) rfl).2

/-- Claim C8: the `getFSRVolume` guard rejects exactly `fsr_id < 0` or
`fsr_id > numFSRs` (not-ready when the volume array is absent), so the
boundary id `numFSRs` passes the bounds check and is read from the
array, unlike `getFSRScalarFlux`, whose strict guard rejects it. -/
theorem C8_getFSRVolume_off_by_one (s : SolverState) (fsr_id group : ℤ) :
    (getFSRVolume s fsr_id = .error .outOfRange ↔
      (fsr_id < 0 ∨ s.num_FSRs < fsr_id)) ∧
    (0 ≤ s.num_FSRs → ∀ v, s.FSR_volumes = some v →
      getFSRVolume s s.num_FSRs = .ok (v s.num_FSRs)) ∧
    (getFSRScalarFlux s s.num_FSRs group = .error .outOfRange) ∧
    (¬(fsr_id < 0 ∨ s.num_FSRs < fsr_id) → s.FSR_volumes = none →
      getFSRVolume s fsr_id = .error .notReady) := by
  refine ⟨?_, ?_, ?_, ?_⟩
  · unfold getFSRVolume
    split_ifs with hA
    · simp [hA]
    · cases hv : s.FSR_volumes <;> simp <;> omega
  · intro hn v hv
    unfold getFSRVolume
    rw [if_neg (by omega), hv]
  · unfold getFSRScalarFlux
    rw [if_pos le_rfl]
  · intro hok hv
    unfold getFSRVolume
    rw [if_neg (by omega), hv]

/-- Claim C8 witness: at `testState` (`numFSRs = 2`), id `2` is accepted
by `getFSRVolume` and read from the volume array, but rejected by
`getFSRScalarFlux`; `-1` and `3` are rejected; an absent volume array
reports not-ready. -/
theorem C8_getFSRVolume_off_by_one_witness :
    getFSRVolume testState (-1) = .error .outOfRange ∧
    getFSRVolume testState 3 = .error .outOfRange ∧
    getFSRVolume testState testState.num_FSRs =
      .ok ((fun _ => (1 : FP)) testState.num_FSRs) ∧
    getFSRScalarFlux testState testState.num_FSRs 1 = .error .outOfRange ∧
    getFSRVolume testStateNoVol 0 = .error .notReady := by
  refine ⟨?_, ?_, ?_, ?_, ?_⟩
  · exact (C8_getFSRVolume_off_by_one testState (-1) 1).1.mpr (by decide)
  · exact (C8_getFSRVolume_off_by_one testState 3 1).1.mpr (by decide)
  · exact (C8_getFSRVolume_off_by_one testState 0 1).2.1 (by decide) _ rfl
  · exact (C8_getFSRVolume_off_by_one testState 0 1).2.2.1
  · exact (C8_getFSRVolume_off_by_one testStateNoVol 0 1).2.2.2
      (by decide) rfl

/-- Claim C5: with a track generator attached, `computeSource` called
with any `k_eff ≤ 0` fails immediately with the invalid-argument error,
before any iteration; the error carries the solver state exactly as it
was — k-effective, scalar flux, old flux, sources and boundary fluxes
untouched. -/
theorem C5_computeSource_invalid_keff (K : Kernels) (cst : Constants)
    (max_iters : ℕ) (k_eff : FP) (res_type : residualType)
    (s : SolverState) (tg : TrackGenerator)
    (htg : s.track_generator = some tg) (hk : k_eff ≤ 0) :
    computeSource K cst max_iters k_eff res_type s =
      .error (.invalidArgument, s) := by
  unfold computeSource
  rw [htg]
  exact if_pos hk

/-- Claim C5 witness: `computeSource` with `kEff = -1.0` on the concrete
configured state. -/
theorem C5_computeSource_invalid_keff_witness :
    computeSource testKernels testConstants 10 (-1)
      residualType.TOTAL_SOURCE testState =
      .error (.invalidArgument, testState) :=
  C5_computeSource_invalid_keff testKernels testConstants 10 (-1)
    residualType.TOTAL_SOURCE testState testTG rfl (by norm_num)

/-- Claim C6: `setTrackGenerator` with a source that contains no
generated tracks fails with the configuration error and leaves every
field unchanged (the error payload is the untouched input state); and a
successful call implies the source contained tracks, is now bound, the
flat track array is the azimuthal-then-track-index concatenation, and
the azimuthal/track/FSR/group/material counts are derived from it and
its geometry. -/
theorem C6_setTrackGenerator (tg : TrackGenerator) (s : SolverState) :
    (tg.contains_tracks = false →
      setTrackGeneratorS tg s = .error (.configurationError, s)) ∧
    (∀ s', setTrackGeneratorS tg s = .ok s' →
      tg.contains_tracks = true ∧
      s'.track_generator = some tg ∧
      s'.tracks = some (flatTracks tg) ∧
      s'.num_azim = tg.num_azim / 2 ∧
      s'.tot_num_tracks = tg.num_total_tracks ∧
      s'.geometry = some tg.geometry ∧
      s'.num_FSRs = tg.geometry.num_FSRs ∧
      s'.num_groups = tg.geometry.num_energy_groups ∧
      s'.num_materials = tg.geometry.num_materials) := by
  constructor
  · intro h
    unfold setTrackGeneratorS
    rw [h]
    rfl
  · intro s' h
    unfold setTrackGeneratorS at h
    by_cases hc : tg.contains_tracks
    · rw [hc] at h
      simp only [Bool.not_true, if_neg] at h
      unfold setGeometryS at h
      by_cases hg : tg.geometry.num_FSRs = 0
      · rw [if_pos hg] at h
        exact absurd h (by simp)
      · rw [if_neg hg] at h
        obtain rfl : _ = s' := Except.ok.inj h
        exact ⟨hc, rfl, rfl, rfl, rfl, rfl, rfl, rfl, rfl⟩
    · rw [Bool.not_eq_true] at hc
      rw [hc] at h
      exact absurd h (by simp)

/-- Claim C6 witness: attaching the track-less generator fails and
returns the untouched state; attaching the populated generator binds it
and derives every count. -/
theorem C6_setTrackGenerator_witness :
    (setTrackGeneratorS testTGNoTracks testState =
      .error (.configurationError, testState)) ∧
    (testTG.contains_tracks = true ∧
      (setTrackGeneratorS testTG testState).toOption.isSome = true) := by
  constructor
  · exact (C6_setTrackGenerator testTGNoTracks testState).1 rfl
  · exact ⟨((C6_setTrackGenerator testTG testState).2 _ rfl).1, rfl⟩

/-- Claim C7: in interpolation mode `initializeExpEvaluator` sets the
evaluator's maximum optical length to the minimum of the user bound and
the measured maximum segment optical length, requesting the segment
split at that minimum before the table build (the event list is in
program order); in intrinsic mode none of this happens. -/
theorem C7_initializeExpEvaluator (tg : TrackGenerator) (c : CoreState) :
    (c.exp_evaluator.interpolate = true →
      (initializeExpEvaluatorC tg c).1.exp_evaluator.max_optical_length =
        min tg.max_optical_length c.exp_evaluator.max_optical_length ∧
      (initializeExpEvaluatorC tg c).2 =
        [ExpEvent.splitSegments
          (min tg.max_optical_length c.exp_evaluator.max_optical_length),
         ExpEvent.initTable]) ∧
    (c.exp_evaluator.interpolate = false →
      initializeExpEvaluatorC tg c = (c, [])) := by
  constructor
  · intro h
    unfold initializeExpEvaluatorC expEvalInit
    rw [if_pos h]
    exact ⟨rfl, rfl⟩
  · intro h
    unfold initializeExpEvaluatorC expEvalInit
    rw [if_neg (by simp [h])]

/-- Claim C7 witness: on the concrete interpolation-mode state
(user bound 10, measured bound 5) and the intrinsic-mode state. -/
theorem C7_initializeExpEvaluator_witness :
    ((initializeExpEvaluatorC testTG testCore).1.exp_evaluator.max_optical_length =
      min testTG.max_optical_length testCore.exp_evaluator.max_optical_length ∧
     (initializeExpEvaluatorC testTG testCore).2 =
      [ExpEvent.splitSegments
        (min testTG.max_optical_length testCore.exp_evaluator.max_optical_length),
       ExpEvent.initTable]) ∧
    initializeExpEvaluatorC testTG testStateIntrinsic.toCoreState =
      (testStateIntrinsic.toCoreState, []) :=
  ⟨(C7_initializeExpEvaluator testTG testCore).1 rfl,
   (C7_initializeExpEvaluator testTG testStateIntrinsic.toCoreState).2 rfl⟩

/-- Claim C10: for valid indices the (spec-modelled) storing
`setFixedSourceByFSR` passes the base validation and stores the value at
`(fsr_id, group-1)` in the fixed-source overlay — the entry
`getFSRSource` later adds as its fixed-source term. -/
theorem C10_setFixedSource_stores (s : SolverState) (fsr_id group : ℤ)
    (v : FP) (h1 : 0 ≤ fsr_id) (h2 : fsr_id < s.num_FSRs)
    (h3 : 1 ≤ group) (h4 : group ≤ s.num_groups) :
    setFixedSourceByFSRStore s fsr_id group v =
      .ok { s with fixed_sources := fun r g =>
        if r = fsr_id ∧ g = group - 1 then v else s.fixed_sources r g } ∧
    ({ s with fixed_sources := fun r g =>
        if r = fsr_id ∧ g = group - 1 then v
        else s.fixed_sources r g } : SolverState).fixed_sources
      fsr_id (group - 1) = v := by
  constructor
  · unfold setFixedSourceByFSRStore setFixedSourceByFSR
    rw [if_neg (by omega), if_neg (by omega)]
  · simp

/-- Claim C10 witness: storing 7 for region 0, group 1 of the concrete
state makes the stored entry read back as 7. -/
theorem C10_setFixedSource_stores_witness :
    setFixedSourceByFSRStore testState 0 1 7 =
      .ok { testState with fixed_sources := fun r g =>
        if r = 0 ∧ g = 0 then 7 else testState.fixed_sources r g } ∧
    ({ testState with fixed_sources := fun r g =>
        if r = 0 ∧ g = 0 then 7
        else testState.fixed_sources r g } : SolverState).fixed_sources
      0 0 = 7 :=
  C10_setFixedSource_stores testState 0 1 7 (by decide) (by decide)
    (by decide) (by decide)

/-- Claim C3: `computeFlux`'s initialization phase reallocates and
zeroes the scalar flux exactly when `only_fixed_source` is true or no
prior solve ran (`_num_iterations == 0`); otherwise the flux left by the
prior solve is kept untouched as the initial iterate. -/
theorem C3_computeFlux_flux_reset (K : Kernels) (cst : Constants)
    (tg : TrackGenerator) (only_fixed_source : Bool) (s : SolverState) :
    ((only_fixed_source = true ∨ s.num_iterations = 0) →
      (fluxInitPhase K cst tg only_fixed_source s).scalar_flux =
        some (fun _ _ => (0 : FP))) ∧
    (only_fixed_source = false → s.num_iterations ≠ 0 →
      (fluxInitPhase K cst tg only_fixed_source s).scalar_flux =
        s.scalar_flux) := by
  constructor
  · intro h
    unfold fluxInitPhase
    simp only [if_pos h]
    rfl
  · intro hofs hit
    simp only [fluxInitPhase]
    rw [if_neg (by simp [hofs, hit])]
    rfl

/-- Claim C3 witness: on the concrete state with a recorded prior solve,
`only_fixed_source = true` zeroes the flux while
`only_fixed_source = false` keeps the previous flux (uniform 3). -/
theorem C3_computeFlux_flux_reset_witness :
    (fluxInitPhase testKernels testConstants testTG true testState).scalar_flux =
      some (fun _ _ => (0 : FP)) ∧
    (fluxInitPhase testKernels testConstants testTG false testState).scalar_flux =
      testState.scalar_flux :=
  ⟨(C3_computeFlux_flux_reset testKernels testConstants testTG true
      testState).1 (Or.inl rfl),
   (C3_computeFlux_flux_reset testKernels testConstants testTG false
      testState).2 rfl (by decide)⟩

lemma initializePolarQuadratureC_thresh (cst : Constants)
    (tg : TrackGenerator) (c : CoreState) :
    (initializePolarQuadratureC cst tg c).converge_thresh =
      c.converge_thresh := rfl

lemma initializeExpEvaluatorC_thresh (tg : TrackGenerator) (c : CoreState) :
    ((initializeExpEvaluatorC tg c).1).converge_thresh = c.converge_thresh :=
  rfl

lemma initializeFluxArraysC_thresh (c : CoreState) :
    (initializeFluxArraysC c).converge_thresh = c.converge_thresh := rfl

lemma initializeSourceArraysC_thresh (c : CoreState) :
    (initializeSourceArraysC c).converge_thresh = c.converge_thresh := rfl

lemma initializeFSRsC_thresh (tg : TrackGenerator) (c : CoreState) :
    (initializeFSRsC tg c).converge_thresh = c.converge_thresh := rfl

lemma countFissionableFSRsC_thresh (c : CoreState) :
    (countFissionableFSRsC c).converge_thresh = c.converge_thresh := rfl

lemma flattenFSRFluxesC_thresh (v : FP) (c : CoreState) :
    (flattenFSRFluxesC v c).converge_thresh = c.converge_thresh := rfl

lemma zeroTrackFluxesC_thresh (c : CoreState) :
    (zeroTrackFluxesC c).converge_thresh = c.converge_thresh := rfl

lemma fluxInitPhase_thresh (K : Kernels) (cst : Constants)
    (tg : TrackGenerator) (only_fixed_source : Bool) (s : SolverState) :
    (fluxInitPhase K cst tg only_fixed_source s).converge_thresh =
      s.converge_thresh := by
  simp only [fluxInitPhase]
  split <;>
    simp only [zeroTrackFluxesC_thresh, countFissionableFSRsC_thresh,
      initializeFSRsC_thresh, initializeSourceArraysC_thresh,
      flattenFSRFluxesC_thresh, initializeFluxArraysC_thresh,
      initializeExpEvaluatorC_thresh, initializePolarQuadratureC_thresh]

lemma sourceLoopStart_thresh (cst : Constants) (tg : TrackGenerator)
    (k_eff : FP) (s : SolverState) :
    (sourceLoopStart cst tg k_eff s).converge_thresh = s.converge_thresh := by
  simp only [sourceLoopStart, zeroTrackFluxesC_thresh,
    flattenFSRFluxesC_thresh, initializeFSRsC_thresh,
    initializeSourceArraysC_thresh, initializeFluxArraysC_thresh,
    initializeExpEvaluatorC_thresh, initializePolarQuadratureC_thresh]

lemma eigLoopStart_thresh (cst : Constants) (tg : TrackGenerator)
    (c : CoreState) :
    (eigLoopStart cst tg c).converge_thresh = c.converge_thresh := by
  simp only [eigLoopStart, initializeCmfdC, ite_self,
    zeroTrackFluxesC_thresh, flattenFSRFluxesC_thresh,
    countFissionableFSRsC_thresh, initializeFSRsC_thresh,
    initializeSourceArraysC_thresh, initializeFluxArraysC_thresh,
    initializeExpEvaluatorC_thresh, initializePolarQuadratureC_thresh]

lemma computeFluxCore_eq (K : Kernels) (cst : Constants)
    (tg : TrackGenerator) (max_iters : ℕ) (only_fixed_source : Bool)
    (s : SolverState) :
    computeFluxCore K cst tg max_iters only_fixed_source s =
      iterLoopGo (fluxIterBody K) s.converge_thresh max_iters max_iters 0
        (fluxInitPhase K cst tg only_fixed_source s) none := by
  unfold computeFluxCore iterLoop
  rw [fluxInitPhase_thresh]

lemma computeSourceCore_eq (K : Kernels) (cst : Constants)
    (tg : TrackGenerator) (max_iters : ℕ) (k_eff : FP)
    (res_type : residualType) (s : SolverState) :
    computeSourceCore K cst tg max_iters k_eff res_type s =
      iterLoopGo (sourceIterBody K res_type) s.converge_thresh max_iters
        max_iters 0 (sourceLoopStart cst tg k_eff s) none := by
  unfold computeSourceCore iterLoop
  rw [sourceLoopStart_thresh]

lemma computeEigenvalueCore_eq (K : Kernels) (cst : Constants)
    (tg : TrackGenerator) (max_iters : ℕ) (res_type : residualType)
    (s : SolverState) :
    computeEigenvalueCore K cst tg max_iters res_type s =
      iterLoopGo (eigIterBody K res_type) s.converge_thresh max_iters
        max_iters 0 (eigLoopStart cst tg s.toCoreState) none := by
  unfold computeEigenvalueCore iterLoop
  rw [eigLoopStart_thresh]

lemma iterLoopGo_contract (body : ℕ → CoreState → CoreState × FP)
    (thresh : FP) (maxIters : ℕ) :
    ∀ (fuel i : ℕ) (c : CoreState) (r : Option FP),
      ((iterLoopGo body thresh maxIters fuel i c r).converged = true ∧
        (iterLoopGo body thresh maxIters fuel i c r).warned = false ∧
        1 < (iterLoopGo body thresh maxIters fuel i c r).numIterations ∧
        ∃ res, (iterLoopGo body thresh maxIters fuel i c r).lastResidual =
            some res ∧ res < thresh) ∨
      ((iterLoopGo body thresh maxIters fuel i c r).converged = false ∧
        (iterLoopGo body thresh maxIters fuel i c r).warned = true ∧
        (iterLoopGo body thresh maxIters fuel i c r).numIterations =
          maxIters) := by
  intro fuel
  induction fuel with
  | zero => exact fun i c r => Or.inr ⟨rfl, rfl, rfl⟩
  | succ n ih =>
    intro i c r
    simp only [iterLoopGo]
    by_cases h : 1 < i ∧ (body i c).2 < thresh
    · rw [if_pos h]
      exact Or.inl ⟨rfl, rfl, h.1, _, rfl, h.2⟩
    · rw [if_neg h]
      exact ih (i + 1) (body i c).1 (some (body i c).2)

/-- Claim C1: each of the three solve loops (`computeFlux`,
`computeSource`, `computeEigenvalue`) either returns through the in-loop
convergence test — in which case the stored iteration count exceeds 1
(never 0 or 1) and the last residual is strictly below the convergence
threshold, with no warning — or runs all `max_iters` iterations, emits
the non-fatal warning, and stores `max_iters` as the iteration count,
keeping the last computed state. -/
theorem C1_loop_termination (K : Kernels) (cst : Constants)
    (tg : TrackGenerator) (max_iters : ℕ) (only_fixed_source : Bool)
    (k_eff : FP) (res_type : residualType) (s : SolverState) :
    (((computeFluxCore K cst tg max_iters only_fixed_source s).converged = true ∧
      (computeFluxCore K cst tg max_iters only_fixed_source s).warned = false ∧
      1 < (computeFluxCore K cst tg max_iters only_fixed_source s).numIterations ∧
      ∃ res, (computeFluxCore K cst tg max_iters only_fixed_source
          s).lastResidual = some res ∧ res < s.converge_thresh) ∨
     ((computeFluxCore K cst tg max_iters only_fixed_source s).converged = false ∧
      (computeFluxCore K cst tg max_iters only_fixed_source s).warned = true ∧
      (computeFluxCore K cst tg max_iters only_fixed_source s).numIterations =
        max_iters)) ∧
    (((computeSourceCore K cst tg max_iters k_eff res_type s).converged = true ∧
      (computeSourceCore K cst tg max_iters k_eff res_type s).warned = false ∧
      1 < (computeSourceCore K cst tg max_iters k_eff res_type s).numIterations ∧
      ∃ res, (computeSourceCore K cst tg max_iters k_eff res_type
          s).lastResidual = some res ∧ res < s.converge_thresh) ∨
     ((computeSourceCore K cst tg max_iters k_eff res_type s).converged = false ∧
      (computeSourceCore K cst tg max_iters k_eff res_type s).warned = true ∧
      (computeSourceCore K cst tg max_iters k_eff res_type s).numIterations =
        max_iters)) ∧
    (((computeEigenvalueCore K cst tg max_iters res_type s).converged = true ∧
      (computeEigenvalueCore K cst tg max_iters res_type s).warned = false ∧
      1 < (computeEigenvalueCore K cst tg max_iters res_type s).numIterations ∧
      ∃ res, (computeEigenvalueCore K cst tg max_iters res_type
          s).lastResidual = some res ∧ res < s.converge_thresh) ∨
     ((computeEigenvalueCore K cst tg max_iters res_type s).converged = false ∧
      (computeEigenvalueCore K cst tg max_iters res_type s).warned = true ∧
      (computeEigenvalueCore K cst tg max_iters res_type s).numIterations =
        max_iters)) :=
  by
  refine ⟨?_, ?_, ?_⟩
  · rw [computeFluxCore_eq]
    exact iterLoopGo_contract (fluxIterBody K) s.converge_thresh max_iters
      max_iters 0 (fluxInitPhase K cst tg only_fixed_source s) none
  · rw [computeSourceCore_eq]
    exact iterLoopGo_contract (sourceIterBody K res_type) s.converge_thresh
      max_iters max_iters 0 (sourceLoopStart cst tg k_eff s) none
  · rw [computeEigenvalueCore_eq]
    exact iterLoopGo_contract (eigIterBody K res_type) s.converge_thresh
      max_iters max_iters 0 (eigLoopStart cst tg s.toCoreState) none

lemma expEvalInit_idem (tg : TrackGenerator) (ev : ExpEvaluator) :
    (expEvalInit tg (expEvalInit tg ev).1).1 = (expEvalInit tg ev).1 := by
  by_cases h : ev.interpolate = true
  · have hmin : min tg.max_optical_length
        (min tg.max_optical_length ev.max_optical_length) =
        min tg.max_optical_length ev.max_optical_length := by
      rw [← min_assoc, min_self]
    simp [expEvalInit, h, hmin]
  · simp [expEvalInit, h]

lemma eigIterBody_configView (K : Kernels) (rt : residualType) (i : ℕ)
    (c : CoreState) : configView (eigIterBody K rt i c).1 = configView c := by
  simp only [eigIterBody, storeFSRFluxesC]
  split <;> rfl

lemma iterLoopGo_configView (body : ℕ → CoreState → CoreState × FP)
    (hb : ∀ i c, configView (body i c).1 = configView c) (thresh : FP)
    (maxIters : ℕ) :
    ∀ (fuel i : ℕ) (c : CoreState) (r : Option FP),
      configView (iterLoopGo body thresh maxIters fuel i c r).core =
        configView c := by
  intro fuel
  induction fuel with
  | zero => exact fun i c r => rfl
  | succ n ih =>
    intro i c r
    simp only [iterLoopGo]
    by_cases h : 1 < i ∧ (body i c).2 < thresh
    · rw [if_pos h]
      exact hb i c
    · rw [if_neg h]
      exact (ih (i + 1) (body i c).1 (some (body i c).2)).trans (hb i c)

lemma eigLoopStart_congr (cst : Constants) (tg : TrackGenerator)
    (c' c : CoreState) (h : configView c' = configView c) :
    eigLoopStart cst tg c' = eigLoopStart cst tg c := by
  obtain ⟨a1, a2, a3, a4, a5, a6, a7, a8, a9, a10, a11, a12, a13, a14, a15,
    a16, a17, a18, a19, a20, a21, a22, a23, a24, a25⟩ := c'
  obtain ⟨b1, b2, b3, b4, b5, b6, b7, b8, b9, b10, b11, b12, b13, b14, b15,
    b16, b17, b18, b19, b20, b21, b22, b23, b24, b25⟩ := c
  simp only [configView, Prod.mk.injEq] at h
  obtain ⟨h1, h2, h3, h4, h5, h6, h7, h8, h9, h10, h11, h12, h13, h14, h15,
    h16, h17, h18, h19, h20⟩ := h
  subst h1 h2 h3 h4 h5 h6 h7 h8 h9 h10 h11 h12 h13 h14 h15 h16 h17 h18
  subst h19 h20
  simp only [eigLoopStart, initializePolarQuadratureC,
    initializeExpEvaluatorC, initializeFluxArraysC, initializeSourceArraysC,
    initializeFSRsC, countFissionableFSRsC, initializeCmfdC, ite_self,
    flattenFSRFluxesC, zeroTrackFluxesC]

lemma eigLoopStart_idem (cst : Constants) (tg : TrackGenerator)
    (c : CoreState) :
    eigLoopStart cst tg (eigLoopStart cst tg c) = eigLoopStart cst tg c := by
  obtain ⟨a1, a2, a3, a4, a5, a6, a7, a8, a9, a10, a11, a12, a13, a14, a15,
    a16, a17, a18, a19, a20, a21, a22, a23, a24, a25⟩ := c
  simp only [eigLoopStart, initializePolarQuadratureC,
    initializeExpEvaluatorC, initializeFluxArraysC, initializeSourceArraysC,
    initializeFSRsC, countFissionableFSRsC, initializeCmfdC, ite_self,
    flattenFSRFluxesC, zeroTrackFluxesC, expEvalInit_idem]

/-- Claim C9: with no intervening state change, a second
`computeEigenvalue` run with identical arguments repeats the first —
the whole loop result, and in particular the final k-effective, is
identical, because each call re-seeds k-effective to 1.0, resets the
scalar flux to uniform 1.0 and the boundary fluxes to zero, and
reinitializes all derived arrays before iterating. -/
theorem C9_computeEigenvalue_idempotent (K : Kernels) (cst : Constants)
    (tg : TrackGenerator) (max_iters : ℕ) (res_type : residualType)
    (s : SolverState) :
    computeEigenvalueCore K cst tg max_iters res_type
        (computeEigenvalueCore K cst tg max_iters res_type s).toState =
      computeEigenvalueCore K cst tg max_iters res_type s ∧
    (computeEigenvalueCore K cst tg max_iters res_type
        (computeEigenvalueCore K cst tg max_iters res_type s).toState).core.k_eff =
      (computeEigenvalueCore K cst tg max_iters res_type s).core.k_eff := by
  have hcfg : configView
      (computeEigenvalueCore K cst tg max_iters res_type s).core =
      configView (eigLoopStart cst tg s.toCoreState) := by
    rw [computeEigenvalueCore_eq]
    exact iterLoopGo_configView (eigIterBody K res_type)
      (eigIterBody_configView K res_type) s.converge_thresh max_iters
      max_iters 0 (eigLoopStart cst tg s.toCoreState) none
  have hstart : eigLoopStart cst tg
      (computeEigenvalueCore K cst tg max_iters res_type s).core =
      eigLoopStart cst tg s.toCoreState :=
    (eigLoopStart_congr cst tg _ _ hcfg).trans
      (eigLoopStart_idem cst tg s.toCoreState)
  have hth : (computeEigenvalueCore K cst tg max_iters res_type
      s).core.converge_thresh = s.converge_thresh := by
    have h := congrArg CoreState.converge_thresh hstart
    rwa [eigLoopStart_thresh, eigLoopStart_thresh] at h
  have hmain : computeEigenvalueCore K cst tg max_iters res_type
      (computeEigenvalueCore K cst tg max_iters res_type s).toState =
      computeEigenvalueCore K cst tg max_iters res_type s := by
    rw [computeEigenvalueCore_eq K cst tg max_iters res_type
      (computeEigenvalueCore K cst tg max_iters res_type s).toState]
    simp only [LoopResult.toState]
    rw [computeEigenvalueCore_eq K cst tg max_iters res_type s] at hth hstart ⊢
    rw [hth, hstart]
  exact ⟨hmain, by rw [hmain]⟩

end OpenMOC
